import Mathlib

/-!
Verification of the SecureBank fintech chatbot (`chatbot.py`).

Shallow embedding conventions:
* Python strings are Lean `String`s; character-level work happens on `String.data`
  (`List Char`).  `str.lower()` is modelled by mapping `Char.toLower` (ASCII case
  mapping; every keyword in the program is ASCII).  `str.strip()` is modelled by
  `pyStrip` (drop whitespace from both ends).
* A value that may be a non-string (the `isinstance` check in `sanitize_input`)
  is modelled by `PyVal`.
* Python `float(...)` applied to decimal notation is modelled by `pyFloat`,
  returning an exact `Rat`; the modelled grammar is optional surrounding
  whitespace, an optional sign, and digits with an optional fractional part.
  Exponent / infinity / nan / underscore forms of the builtin are outside the
  model (no claim touches them).  All concrete values in the claims are exactly
  representable, so exact rationals are a faithful value model.
* The two regular expressions of `_extract_entities` and the anchored pattern of
  `validate_account_number` are compiled by hand into matchers; comments at each
  matcher justify the translation, including where greedy backtracking is
  resolved statically.  For `validate_account_number` the full `re` semantics
  is modelled: `\d` is the Unicode decimal-digit category Nd (table of
  Unicode 14.0.0, the table of CPython 3.11's `re`), and `$` (without
  MULTILINE) matches at the end of the string or just before a newline that is
  the string's last character.  In `_extract_entities` the matchers use `\d`
  and `\w` at ASCII (`Char.isDigit`, `Char.isAlphanum` plus underscore), which
  does not bear on the claims proved about them.
* Exceptions are modelled with `Except String`.  The orchestrator
  `process_message` is stated over an abstract `Pipeline` of possibly-raising
  components so that the try/except boundary can be proved for an arbitrary
  fault, and the concrete pipeline (`realPipeline`) instantiates it with the
  embedded classifier, extractor and generator.  `random.choice` is modelled by
  an arbitrary `pick : Nat` index reduced mod the list length (choice on an
  empty sequence raises, modelled by `Except.error`).
* `self.active_sessions` (a Python dict) is modelled by an association list
  with leftmost-binding lookup; assignment conses a fresh binding and drops the
  old one.  In-place mutation of the session object (`session.last_intent = ...`)
  is modelled by writing the updated session back to the store at that point in
  the pipeline, which preserves the observable fact that the mutation survives a
  later exception.
-/

/-- Double-quote character (written via its code point). -/
def dquote : Char := Char.ofNat 34

/-- Single-quote character (written via its code point). -/
def squote : Char := Char.ofNat 39

/-- Model of `str.strip()`: remove leading and trailing whitespace. -/
def pyStrip (l : List Char) : List Char :=
  ((l.dropWhile Char.isWhitespace).reverse.dropWhile Char.isWhitespace).reverse

/-- Model of `str.lower()` (ASCII case mapping). -/
def pyLower (l : List Char) : List Char := l.map Char.toLower

/-- Model of the Python substring test `pat in hay`. -/
def containsSub (pat : List Char) : List Char → Bool
  | [] => pat.isEmpty
  | c :: rest => pat.isPrefixOf (c :: rest) || containsSub pat rest

/-- A Python value that is either a string or something that is not a string
(the `isinstance(user_input, str)` check only looks at this distinction). -/
inductive PyVal where
  | str (s : String)
  | nonStr
deriving DecidableEq, Repr

/-- The character class removed by `re.sub(r'[<>"\';]', '', ...)`. -/
def bannedChars : List Char := ['<', '>', dquote, squote, ';']

/-- `SecurityValidator.sanitize_input`: non-strings become `""`; otherwise the
blacklisted characters are removed and the result is stripped. -/
def sanitize_input (user_input : PyVal) : String :=
  match user_input with
  | PyVal.str s => ⟨pyStrip (s.data.filter (fun c => !(bannedChars.contains c)))⟩
  | PyVal.nonStr => ""

/-- The code-point ranges of the Unicode general category Nd (decimal digit),
Unicode 14.0.0 — the table used by CPython 3.11's `re` for `\d`. -/
def ndRanges : List (Nat × Nat) :=
  [ (48, 57), (1632, 1641), (1776, 1785), (1984, 1993), (2406, 2415), (2534, 2543),
    (2662, 2671), (2790, 2799), (2918, 2927), (3046, 3055), (3174, 3183), (3302, 3311),
    (3430, 3439), (3558, 3567), (3664, 3673), (3792, 3801), (3872, 3881), (4160, 4169),
    (4240, 4249), (6112, 6121), (6160, 6169), (6470, 6479), (6608, 6617), (6784, 6793),
    (6800, 6809), (6992, 7001), (7088, 7097), (7232, 7241), (7248, 7257), (42528, 42537),
    (43216, 43225), (43264, 43273), (43472, 43481), (43504, 43513), (43600, 43609),
    (44016, 44025), (65296, 65305), (66720, 66729), (68912, 68921), (69734, 69743),
    (69872, 69881), (69942, 69951), (70096, 70105), (70384, 70393), (70736, 70745),
    (70864, 70873), (71248, 71257), (71360, 71369), (71472, 71481), (71904, 71913),
    (72016, 72025), (72784, 72793), (73040, 73049), (73120, 73129), (92768, 92777),
    (92864, 92873), (93008, 93017), (120782, 120831), (123200, 123209), (123632, 123641),
    (125264, 125273), (130032, 130041) ]

/-- Model of Python's `\d` (no ASCII flag): membership in the Nd category. -/
def isPyDigit (c : Char) : Bool :=
  ndRanges.any (fun r => decide (r.1 ≤ c.toNat) && decide (c.toNat ≤ r.2))

/-- Hand-compiled matcher for `re.match(r'^\d{lo,hi}$', ...)` with full `re`
semantics: `^` anchors at the start, and `$` (no MULTILINE) matches at the end
of the string or just before a newline that is the last character.  Take the
maximal digit run `ds`; the match succeeds exactly when its length lies in
`[lo, hi]` and the remainder is empty or a single final newline.  This resolves
the backtracking of the greedy counted repetition statically: stopping after
fewer than `ds.length` digits leaves a digit at the `$` position, and a digit
is neither the end of the string nor a newline, so only the full run (when it
is at most `hi` long) can precede a successful `$`; a run longer than `hi`
likewise fails for every allowed count. -/
def reMatchDigitsDollar (lo hi : Nat) (l : List Char) : Bool :=
  let ds := l.takeWhile isPyDigit
  let rest := l.dropWhile isPyDigit
  decide (lo ≤ ds.length) && decide (ds.length ≤ hi) && (rest.isEmpty || rest == ['\n'])

/-- `SecurityValidator.validate_account_number`: `re.match(r'^\d{10,12}$', s)`
turned into a `Bool`. -/
def validate_account_number (account_number : String) : Bool :=
  reMatchDigitsDollar 10 12 account_number.data

/-- The ten Arabic-Indic digits U+0660 to U+0669: Nd digits that are not ASCII. -/
def arabicIndicDigits : List Char := (List.range 10).map (fun i => Char.ofNat (1632 + i))

/-- Numeric value of a decimal digit character. -/
def charVal (c : Char) : Nat := c.toNat - 48

/-- Value of a digit string, most significant digit first. -/
def digitsVal (l : List Char) : Nat := l.foldl (fun a c => 10 * a + charVal c) 0

/-- Exact value of a parsed decimal: sign times (integer part plus fractional
part scaled down by its length). -/
def ratOfParts (sgn : Int) (ip fp : List Char) : Rat :=
  (sgn : Rat) * ((digitsVal ip : Rat) + (digitsVal fp : Rat) / (10 : Rat) ^ fp.length)

/-- Model of Python `float(...)` on decimal notation, after whitespace has been
stripped: optional sign, then `d+ [. d*]` or `. d+`. -/
def pyFloatCore (l : List Char) : Option Rat :=
  let sl : Int × List Char :=
    match l with
    | c :: r => if c == '-' then (-1, r) else if c == '+' then (1, r) else (1, l)
    | [] => (1, [])
  let ip := sl.2.takeWhile Char.isDigit
  let rest := sl.2.drop ip.length
  match rest with
  | [] => if ip.isEmpty then none else some (ratOfParts sl.1 ip [])
  | c :: r =>
    if c == '.' then
      let fp := r.takeWhile Char.isDigit
      let rest2 := r.drop fp.length
      if rest2.isEmpty && !(ip.isEmpty && fp.isEmpty) then some (ratOfParts sl.1 ip fp)
      else none
    else none

/-- Model of Python `float(...)`: the builtin tolerates surrounding whitespace. -/
def pyFloat (l : List Char) : Option Rat := pyFloatCore (pyStrip l)

/-- The character removal `amount.replace('$', '').replace(',', '')`. -/
def stripMoney (s : String) : List Char :=
  s.data.filter (fun c => !(c == '$' || c == ','))

/-- `SecurityValidator.validate_amount`: strip `$` and `,`, parse as a float;
on success return `(parsed > 0, parsed)`, on a parse failure `(false, 0.0)`. -/
def validate_amount (amount : String) : Bool × Rat :=
  match pyFloat (stripMoney amount) with
  | some v => (decide (0 < v), v)
  | none => (false, 0)

/-- The closed set of intents (`IntentType` enum). -/
inductive IntentType where
  | greeting
  | account_balance
  | transaction_history
  | transfer_money
  | loan_info
  | investment_advice
  | support
  | goodbye
  | unknown
deriving DecidableEq, Repr

/-- `IntentClassifier.intent_keywords`, in the dict's insertion order (Python
dicts iterate in insertion order). -/
def intent_keywords : List (IntentType × List String) :=
  [ (IntentType.greeting, ["hello", "hi", "hey", "good morning", "good afternoon"]),
    (IntentType.account_balance, ["balance", "account balance", "how much", "funds"]),
    (IntentType.transaction_history, ["transactions", "history", "statement", "activity"]),
    (IntentType.transfer_money, ["transfer", "send money", "pay", "wire"]),
    (IntentType.loan_info, ["loan", "mortgage", "credit", "borrow"]),
    (IntentType.investment_advice, ["invest", "portfolio", "stocks", "bonds", "mutual funds"]),
    (IntentType.support, ["help", "support", "customer service", "problem"]),
    (IntentType.goodbye, ["bye", "goodbye", "exit", "quit", "thank you"]) ]

/-- The keyword-table scan of `classify_intent`: first pair whose keyword list
has a member occurring in the lowered text wins. -/
def classifyGo (low : List Char) : List (IntentType × List String) → IntentType
  | [] => IntentType.unknown
  | (intent, keywords) :: rest =>
    if keywords.any (fun k => containsSub k.data low) then intent else classifyGo low rest

/-- `IntentClassifier.classify_intent`: lower-case, scan the keyword table in
order, default to `unknown`. -/
def classify_intent (user_input : String) : IntentType :=
  classifyGo (pyLower user_input.data) intent_keywords

/-- Take at most `n` leading characters satisfying `p` (greedy bounded
repetition `p{0,n}`). -/
def takeUpTo (n : Nat) (p : Char → Bool) : List Char → List Char × List Char
  | [] => ([], [])
  | c :: r =>
    match n with
    | 0 => ([], c :: r)
    | m + 1 =>
      if p c then
        let x := takeUpTo m p r
        (c :: x.1, x.2)
      else ([], c :: r)

/-- Greedy `(?:,\d{3})*`: repeatedly consume a comma followed by exactly three
digits.  A partial iteration (comma not followed by three digits) makes the
star stop at the last complete iteration, which is what this recursion does. -/
def commaGroups : List Char → List Char × List Char
  | ',' :: a :: b :: c :: rest =>
    if a.isDigit && b.isDigit && c.isDigit then
      let x := commaGroups rest
      (',' :: a :: b :: c :: x.1, x.2)
    else ([], ',' :: a :: b :: c :: rest)
  | l => ([], l)

/-- Greedy `(?:\.\d{2})?`: a dot followed by exactly two digits, or nothing. -/
def decPart : List Char → List Char × List Char
  | '.' :: a :: b :: rest =>
    if a.isDigit && b.isDigit then (['.', a, b], rest) else ([], '.' :: a :: b :: rest)
  | l => ([], l)

/-- Match of `\$?(\d{1,3}(?:,\d{3})*(?:\.\d{2})?)` anchored at the head of `l`,
returning the capture group.  Backtracking is resolved statically: if the text
starts with `$` but no digit follows, dropping the optional `$` cannot help
because `\d{1,3}` then fails on `$` itself; and after the greedy `\d{1,3}` the
remaining parts can always match the empty string, so no backtracking into the
digit count is ever needed. -/
def matchAmountAt (l : List Char) : Option (List Char) :=
  let l1 := match l with
            | c :: r => if c == '$' then r else l
            | [] => l
  let p := takeUpTo 3 Char.isDigit l1
  if p.1.isEmpty then none
  else
    let g := commaGroups p.2
    let f := decPart g.2
    some (p.1 ++ g.1 ++ f.1)

/-- Model of `\w` at ASCII: letters, digits, underscore. -/
def isWordChar (c : Char) : Bool := c.isAlphanum || c == '_'

/-- Match of `\b\d{10,12}\b` anchored at the head of `l`, where `prev` is the
character just before `l` (none at the start of the string).  The maximal digit
run starting here is taken; the match succeeds exactly when the position is a
word boundary, the run has length 10 to 12, and the character after the run (if
any) is not a word character.  This is equivalent to the backtracking search:
taking fewer than the whole run leaves a digit adjacent to the trailing
position, so `\b` fails there, and a run longer than 12 fails for every
allowed count 10, 11, 12 for the same reason. -/
def matchAccountAt (prev : Option Char) (l : List Char) : Option (List Char) :=
  let ds := l.takeWhile Char.isDigit
  let rest := l.drop ds.length
  let prevOk := match prev with
                | none => true
                | some c => !isWordChar c
  let nextOk := match rest with
                | [] => true
                | c :: _ => !isWordChar c
  if prevOk && decide (10 ≤ ds.length) && decide (ds.length ≤ 12) && nextOk then some ds
  else none

/-- Leftmost match of an anchored matcher: `re.findall(...)[0]` for a pattern
without a word-boundary context. -/
def scanFirst (f : List Char → Option (List Char)) : List Char → Option (List Char)
  | [] => f []
  | c :: r =>
    match f (c :: r) with
    | some x => some x
    | none => scanFirst f r

/-- Leftmost match of an anchored matcher that needs the preceding character
(for `\b`): `prev` is the character before the current position. -/
def scanFirstP (f : Option Char → List Char → Option (List Char)) :
    Option Char → List Char → Option (List Char)
  | prev, [] => f prev []
  | prev, c :: r =>
    match f prev (c :: r) with
    | some x => some x
    | none => scanFirstP f (some c) r

/-- Extracted entities: a dict with the two optional keys the code can store.
The code never stores a null value, so `none` means exactly "key absent". -/
structure Entities where
  amount : Option String
  account_number : Option String
deriving DecidableEq, Repr

/-- `FintechChatbot._extract_entities`: first match of the amount pattern and
first match of the account pattern, each stored only when present. -/
def _extract_entities (message : String) : Entities :=
  { amount := (scanFirst matchAmountAt message.data).map (fun l => ⟨l⟩),
    account_number := (scanFirstP matchAccountAt none message.data).map (fun l => ⟨l⟩) }

/-- `UserSession` dataclass.  `context` is an uninterpreted string-keyed map,
unused by every handler. -/
structure UserSession where
  user_id : String
  authenticated : Bool
  context : List (String × String)
  last_intent : Option IntentType
deriving DecidableEq, Repr

/-- `ResponseGenerator.responses`: canned lists for greeting and goodbye only;
`none` models a `KeyError` on any other intent. -/
def responses (intent : IntentType) : Option (List String) :=
  match intent with
  | IntentType.greeting =>
    some [ "Hello! Welcome to SecureBank. How can I assist you today?",
           "Hi there! I\x27m here to help with your banking needs. What can I do for you?",
           "Good day! How may I help you with your financial services today?" ]
  | IntentType.goodbye =>
    some [ "Thank you for using SecureBank! Have a great day!",
           "Goodbye! Feel free to reach out anytime you need assistance.",
           "Take care! Remember, I\x27m here 24/7 for your banking needs." ]
  | _ => none

/-- `ResponseGenerator._get_random_response`: `random.choice(self.responses[intent])`.
The dict access raises on a missing key and `random.choice` raises on an empty
sequence; the chosen index is the arbitrary `pick` reduced mod the length. -/
def _get_random_response (pick : Nat) (intent : IntentType) : Except String String :=
  match responses intent with
  | none => Except.error "KeyError"
  | some l =>
    match l.get? (pick % l.length) with
    | none => Except.error "Cannot choose from an empty sequence"
    | some r => Except.ok r

/-- `ResponseGenerator._request_authentication`. -/
def _request_authentication : String :=
  "For security purposes, I\x27ll need to verify your identity first. Please provide your account number or contact customer service at 1-800-SECURE."

/-- `ResponseGenerator._handle_balance_inquiry` (mock balance inlined). -/
def _handle_balance_inquiry (_session : UserSession) : String :=
  "Your current account balance is $2,547.83. Is there anything else I can help you with?"

/-- `ResponseGenerator._handle_transaction_history`. -/
def _handle_transaction_history (_session : UserSession) : String :=
  "Here are your recent transactions:\n• Dec 15: Grocery Store - $85.42\n• Dec 14: Online Transfer - $200.00\n• Dec 13: ATM Withdrawal - $60.00\nWould you like more details about any specific transaction?"

/-- `ResponseGenerator._handle_transfer_request` (the entities argument is
accepted but unused). -/
def _handle_transfer_request (_extracted_data : Entities) : String :=
  "I can help you with transfers. For security, please visit our secure online portal or mobile app to complete transfers. You can also call our customer service at 1-800-SECURE."

/-- `ResponseGenerator._handle_loan_inquiry`. -/
def _handle_loan_inquiry : String :=
  "We offer various loan products including:\n• Personal loans (5.99% - 15.99% APR)\n• Auto loans (3.49% - 7.99% APR)\n• Home mortgages (competitive rates)\nWould you like to speak with a loan specialist?"

/-- `ResponseGenerator._handle_investment_inquiry`. -/
def _handle_investment_inquiry : String :=
  "Investment advice should be personalized to your financial situation. I recommend speaking with one of our certified financial advisors. Would you like me to schedule a consultation for you?"

/-- `ResponseGenerator._handle_support_request`. -/
def _handle_support_request : String :=
  "I\x27m here to help! For complex issues, you can:\n• Call customer service: 1-800-SECURE\n• Visit our website: www.securebank.com/support\n• Chat with a specialist (Mon-Fri 8AM-8PM)\nWhat specific issue can I help you with?"

/-- `ResponseGenerator._handle_unknown_intent`. -/
def _handle_unknown_intent : String :=
  "I\x27m not sure I understand. I can help you with:\n• Account balances and transactions\n• Loan information\n• General banking questions\n• Connecting you with customer support\nHow can I assist you today?"

/-- `ResponseGenerator.generate_response`: the authentication gate, then the
`response_map` dispatch (whose `.get(intent, unknown-handler)` default can
never fire, the map being total on the enum). -/
def generate_response (pick : Nat) (intent : IntentType) (session : UserSession)
    (extracted_data : Entities) : Except String String :=
  if (intent = IntentType.account_balance ∨ intent = IntentType.transaction_history ∨
      intent = IntentType.transfer_money) ∧ session.authenticated = false then
    Except.ok _request_authentication
  else
    match intent with
    | IntentType.greeting => _get_random_response pick IntentType.greeting
    | IntentType.account_balance => Except.ok (_handle_balance_inquiry session)
    | IntentType.transaction_history => Except.ok (_handle_transaction_history session)
    | IntentType.transfer_money => Except.ok (_handle_transfer_request extracted_data)
    | IntentType.loan_info => Except.ok _handle_loan_inquiry
    | IntentType.investment_advice => Except.ok _handle_investment_inquiry
    | IntentType.support => Except.ok _handle_support_request
    | IntentType.goodbye => _get_random_response pick IntentType.goodbye
    | IntentType.unknown => Except.ok _handle_unknown_intent

/-- The chatbot's session store: `self.active_sessions`, a dict from user id to
session. -/
structure ChatbotState where
  active_sessions : List (String × UserSession)
deriving DecidableEq, Repr

/-- Dict lookup `self.active_sessions.get(user_id)`. -/
def lookupSession (st : ChatbotState) (uid : String) : Option UserSession :=
  (st.active_sessions.find? (fun p => p.1 == uid)).map (fun p => p.2)

/-- Dict assignment `self.active_sessions[user_id] = session`. -/
def set_session (st : ChatbotState) (uid : String) (s : UserSession) : ChatbotState :=
  ⟨(uid, s) :: st.active_sessions.filter (fun p => p.1 != uid)⟩

/-- `FintechChatbot.create_session`: fresh defaults, registered in the store. -/
def create_session (st : ChatbotState) (uid : String) : UserSession × ChatbotState :=
  let s : UserSession :=
    { user_id := uid, authenticated := false, context := [], last_intent := none }
  (s, set_session st uid s)

/-- `FintechChatbot.get_session`: the stored session, else a fresh one (a
session object is always truthy, so Python's `get(...) or create(...)` is
exactly this). -/
def get_session (st : ChatbotState) (uid : String) : UserSession × ChatbotState :=
  match lookupSession st uid with
  | some s => (s, st)
  | none => create_session st uid

/-- `FintechChatbot.end_session`: drop the entry if present. -/
def end_session (st : ChatbotState) (uid : String) : ChatbotState :=
  ⟨st.active_sessions.filter (fun p => p.1 != uid)⟩

/-- The three components called inside the orchestrator's try block, as
possibly-raising functions.  Quantifying over a `Pipeline` lets the fail-safe
boundary be proved for an arbitrary internal exception. -/
structure Pipeline where
  classify : String → Except String IntentType
  extract : String → Except String Entities
  generate : IntentType → UserSession → Entities → Except String String

/-- The short-circuit reply for an empty sanitized message. -/
def invalid_message_response : String :=
  "I didn\x27t receive a valid message. Please try again."

/-- The fixed apology returned by the except-branch of `process_message`. -/
def error_response : String :=
  "I apologize, but I encountered an error. Please try again or contact customer support at 1-800-SECURE if the issue persists."

/-- `FintechChatbot.process_message` over an abstract pipeline: get or create
the session, sanitize, short-circuit on an empty sanitized message, classify,
record `last_intent` on the stored session (in-place mutation in the source),
extract entities, generate; any `Except.error` from a component is caught at
the boundary and becomes the fixed apology string. -/
def process_messageP (P : Pipeline) (st : ChatbotState) (user_id : String)
    (message : PyVal) : String × ChatbotState :=
  let session := (get_session st user_id).1
  let st1 := (get_session st user_id).2
  let sanitized := sanitize_input message
  if sanitized = "" then (invalid_message_response, st1)
  else
    match P.classify sanitized with
    | Except.error _ => (error_response, st1)
    | Except.ok intent =>
      let session2 := { session with last_intent := some intent }
      let st2 := set_session st1 user_id session2
      match P.extract sanitized with
      | Except.error _ => (error_response, st2)
      | Except.ok extracted =>
        match P.generate intent session2 extracted with
        | Except.error _ => (error_response, st2)
        | Except.ok response => (response, st2)

/-- The concrete pipeline of the program: the embedded classifier and extractor
(total, hence always `ok`) and the response generator with its modelled raise
points, at randomness `pick`. -/
def realPipeline (pick : Nat) : Pipeline :=
  { classify := fun s => Except.ok (classify_intent s),
    extract := fun s => Except.ok (_extract_entities s),
    generate := fun intent session extracted => generate_response pick intent session extracted }

/-- `FintechChatbot.process_message` proper, at randomness `pick`. -/
def process_message (pick : Nat) (st : ChatbotState) (user_id : String)
    (message : PyVal) : String × ChatbotState :=
  process_messageP (realPipeline pick) st user_id message

/-! ## Definitions taken from the specification's words

These are deliberately written from the spec text (not from the code) and are
compared with the embedded code above by the claim theorems. -/

/-- Modelled from the spec: the fixed declared intent order of §4.2. -/
def specIntentOrder : List IntentType :=
  [ IntentType.greeting, IntentType.account_balance, IntentType.transaction_history,
    IntentType.transfer_money, IntentType.loan_info, IntentType.investment_advice,
    IntentType.support, IntentType.goodbye ]

/-- Modelled from the spec: the keyword substrings associated with each intent. -/
def keywordsOf : IntentType → List String
  | IntentType.greeting => ["hello", "hi", "hey", "good morning", "good afternoon"]
  | IntentType.account_balance => ["balance", "account balance", "how much", "funds"]
  | IntentType.transaction_history => ["transactions", "history", "statement", "activity"]
  | IntentType.transfer_money => ["transfer", "send money", "pay", "wire"]
  | IntentType.loan_info => ["loan", "mortgage", "credit", "borrow"]
  | IntentType.investment_advice => ["invest", "portfolio", "stocks", "bonds", "mutual funds"]
  | IntentType.support => ["help", "support", "customer service", "problem"]
  | IntentType.goodbye => ["bye", "goodbye", "exit", "quit", "thank you"]
  | IntentType.unknown => []

/-- Modelled from the spec (§4.2): lower-case the text, return the first intent
in the declared order any of whose keyword substrings occurs anywhere in the
lower-cased text, defaulting to `unknown`. -/
def specClassify (s : String) : IntentType :=
  match specIntentOrder.find?
      (fun i => (keywordsOf i).any (fun k => containsSub k.data (pyLower s.data))) with
  | some i => i
  | none => IntentType.unknown

/-- Model of `str.strip()` at the `String` level (used to state the spec's
sentence `sanitize(t) = t.strip()`). -/
def pyStripStr (s : String) : String := ⟨pyStrip s.data⟩

/-- The character preceding the current scan position, given the character
before the whole segment and the part already scanned. -/
def prevOf (prev : Option Char) : List Char → Option Char
  | [] => prev
  | c :: r => prevOf (some c) r

/-- The amount regex finds a match somewhere in `l`: some suffix of `l` starts
with a match. -/
def amountMatchFound (l : List Char) : Prop :=
  ∃ t, t <:+ l ∧ (matchAmountAt t).isSome = true

/-- The account regex finds a match somewhere in `l`: at some split of `l` the
boundary-aware matcher succeeds. -/
def accountMatchFound (l : List Char) : Prop :=
  ∃ pre t, pre ++ t = l ∧ (matchAccountAt (prevOf none pre) t).isSome = true

/-- The abstract pipeline raises somewhere on input `s` (with `session` the
session object that would be passed to the generator): the classifier raises,
or it succeeds and the extractor raises, or both succeed and the generator
raises. -/
def pipelineFaults (P : Pipeline) (s : String) (session : UserSession) : Prop :=
  (∃ e, P.classify s = Except.error e) ∨
  (∃ intent e, P.classify s = Except.ok intent ∧ P.extract s = Except.error e) ∨
  (∃ intent extracted e, P.classify s = Except.ok intent ∧ P.extract s = Except.ok extracted ∧
    P.generate intent { session with last_intent := some intent } extracted = Except.error e)

/-- A pipeline whose generator always raises, with the real classifier and
extractor: a concrete instance of an internal fault. -/
def faultyPipeline : Pipeline :=
  { classify := fun s => Except.ok (classify_intent s),
    extract := fun s => Except.ok (_extract_entities s),
    generate := fun _ _ _ => Except.error "boom" }

/-! ## Helper lemmas -/

/-- The keyword-table scan is the first-match search of the spec. -/
theorem classifyGo_eq_find? (low : List Char) (pairs : List (IntentType × List String)) :
    classifyGo low pairs =
      match pairs.find? (fun p => p.2.any (fun k => containsSub k.data low)) with
      | some p => p.1
      | none => IntentType.unknown := by
  induction pairs with
  | nil => rfl
  | cons p rest ih =>
    obtain ⟨intent, keywords⟩ := p
    by_cases h : (keywords.any (fun k => containsSub k.data low)) = true
    · simp [classifyGo, List.find?, h]
    · simp only [Bool.not_eq_true] at h
      simp [classifyGo, List.find?, h, ih]

/-- The code's keyword table is the spec's order paired with the spec's
keyword lists. -/
theorem intent_keywords_eq :
    intent_keywords = specIntentOrder.map (fun i => (i, keywordsOf i)) := rfl

/-- Membership survives `pyStrip`. -/
theorem mem_of_mem_pyStrip {c : Char} {l : List Char} (h : c ∈ pyStrip l) : c ∈ l := by
  unfold pyStrip at h
  rw [List.mem_reverse] at h
  have h1 := (List.dropWhile_sublist Char.isWhitespace).mem h
  rw [List.mem_reverse] at h1
  exact (List.dropWhile_sublist Char.isWhitespace).mem h1

/-- Looking up the key just stored returns the stored session. -/
theorem lookupSession_set (st : ChatbotState) (uid : String) (s : UserSession) :
    lookupSession (set_session st uid s) uid = some s := by
  simp [lookupSession, set_session, List.find?]

/-- `takeWhile` of an all-true block followed by an empty or blocked rest is
the block itself. -/
theorem takeWhile_append_all {p : Char → Bool} {ds rest : List Char}
    (h : ∀ c ∈ ds, p c = true)
    (h2 : rest = [] ∨ ∃ c r, rest = c :: r ∧ p c = false) :
    (ds ++ rest).takeWhile p = ds := by
  induction ds with
  | nil =>
    rcases h2 with rfl | ⟨c, r, rfl, hc⟩
    · rfl
    · simp [List.takeWhile_cons, hc]
  | cons d ds' ih =>
    have hd : p d = true := h d (List.mem_cons_self d ds')
    rw [List.cons_append, List.takeWhile_cons p d, if_pos hd,
      ih (fun c hc => h c (List.mem_cons_of_mem d hc))]

/-- A scan without boundary context succeeds exactly when the matcher succeeds
at the head of some suffix. -/
theorem scanFirst_isSome_iff (f : List Char → Option (List Char)) (l : List Char) :
    (scanFirst f l).isSome = true ↔ ∃ t, t <:+ l ∧ (f t).isSome = true := by
  induction l with
  | nil => simp [scanFirst, List.suffix_nil]
  | cons c r ih =>
    simp only [scanFirst]
    cases h : f (c :: r) with
    | some x =>
      simp only [Option.isSome_some, true_iff]
      exact ⟨c :: r, List.suffix_refl _, by simp [h]⟩
    | none =>
      simp only [ih]
      constructor
      · rintro ⟨t, ht, hf⟩
        exact ⟨t, List.suffix_cons_iff.mpr (Or.inr ht), hf⟩
      · rintro ⟨t, ht, hf⟩
        rcases List.suffix_cons_iff.mp ht with rfl | ht'
        · rw [h] at hf; simp at hf
        · exact ⟨t, ht', hf⟩

/-- A boundary-aware scan succeeds exactly when the matcher succeeds at the
head of the right part of some split, fed the character just before it. -/
theorem scanFirstP_isSome_iff (f : Option Char → List Char → Option (List Char)) :
    ∀ (l : List Char) (prev : Option Char),
    (scanFirstP f prev l).isSome = true ↔
      ∃ pre t, pre ++ t = l ∧ (f (prevOf prev pre) t).isSome = true := by
  intro l
  induction l with
  | nil =>
    intro prev
    constructor
    · intro h
      exact ⟨[], [], rfl, h⟩
    · rintro ⟨pre, t, hsplit, hf⟩
      rcases List.append_eq_nil.mp hsplit with ⟨rfl, rfl⟩
      exact hf
  | cons c r ih =>
    intro prev
    simp only [scanFirstP]
    cases h : f prev (c :: r) with
    | some x =>
      simp only [Option.isSome_some, true_iff]
      exact ⟨[], c :: r, rfl, by simp [prevOf, h]⟩
    | none =>
      simp only [ih]
      constructor
      · rintro ⟨pre, t, hsplit, hf⟩
        exact ⟨c :: pre, t, by simp [hsplit], hf⟩
      · rintro ⟨pre, t, hsplit, hf⟩
        cases pre with
        | nil =>
          simp only [List.nil_append] at hsplit
          subst hsplit
          rw [show prevOf prev [] = prev from rfl] at hf
          rw [h] at hf
          simp at hf
        | cons c' pre' =>
          rw [List.cons_append, List.cons.injEq] at hsplit
          obtain ⟨rfl, hsplit'⟩ := hsplit
          exact ⟨pre', t, hsplit', hf⟩

/-- The amount matcher succeeds on anything starting with a digit. -/
theorem matchAmountAt_cons_digit {c : Char} (r : List Char) (h : c.isDigit = true) :
    (matchAmountAt (c :: r)).isSome = true := by
  have hne : (c == '$') = false := by
    cases hb : (c == '$') with
    | false => rfl
    | true =>
      have : c = '$' := by simpa using hb
      subst this
      simp at h
  simp only [matchAmountAt, hne, Bool.false_eq_true, if_false, takeUpTo, h, if_true]
  simp [List.isEmpty]

/-- A digit anywhere in the text makes the amount scan succeed. -/
theorem scanFirst_amount_of_digit {l : List Char}
    (h : ∃ c, c ∈ l ∧ c.isDigit = true) :
    (scanFirst matchAmountAt l).isSome = true := by
  induction l with
  | nil => simp at h
  | cons c r ih =>
    simp only [scanFirst]
    cases hm : matchAmountAt (c :: r) with
    | some x => simp
    | none =>
      obtain ⟨d, hd, hdig⟩ := h
      rcases List.mem_cons.mp hd with rfl | hd'
      · have hsome := matchAmountAt_cons_digit r hdig
        rw [hm] at hsome
        simp at hsome
      · exact ih ⟨d, hd', hdig⟩

/-- Concrete evaluation: the code returns the parsed value `-5.0` (not `0.0`)
alongside `false`. -/
theorem validate_amount_neg5_eval : validate_amount "-5" = (false, -5) := by
  have hparse : pyFloat (stripMoney "-5") = some (ratOfParts (-1) ['5'] []) := rfl
  have hv : ratOfParts (-1) ['5'] [] = (-5 : Rat) := by
    rw [ratOfParts]
    norm_num [show digitsVal ['5'] = 5 from rfl, show digitsVal [] = 0 from rfl]
  have hd : decide ((0 : Rat) < -5) = false := by
    simp only [decide_eq_false_iff_not]
    norm_num
  unfold validate_amount
  rw [hparse, hv]
  show (decide ((0 : Rat) < -5), (-5 : Rat)) = (false, -5)
  rw [hd]

/-- Concrete evaluation: `$` and `,` are stripped and `1000.00` parses to
exactly `1000`. -/
theorem validate_amount_1000_eval : validate_amount "$1,000.00" = (true, 1000) := by
  have hparse :
      pyFloat (stripMoney "$1,000.00") = some (ratOfParts 1 ['1','0','0','0'] ['0','0']) := rfl
  have hv : ratOfParts 1 ['1','0','0','0'] ['0','0'] = (1000 : Rat) := by
    rw [ratOfParts]
    norm_num [show digitsVal ['1','0','0','0'] = 1000 from rfl,
      show digitsVal ['0','0'] = 0 from rfl]
  have hd : decide ((0 : Rat) < 1000) = true := by
    simp only [decide_eq_true_eq]
    norm_num
  unfold validate_amount
  rw [hparse, hv]
  show (decide ((0 : Rat) < 1000), (1000 : Rat)) = (true, 1000)
  rw [hd]

/-! ## Claim theorems -/

/-- C1: `process_message` is a total function into strings (its Lean type), and
whenever any of the three pipeline components would raise on the sanitized
message — the classifier, the entity extractor (after a successful
classification), or the response generator (after both succeed) — the
orchestrator boundary catches the fault and the call returns the one fixed
apology-and-support-number string. -/
theorem process_message_fault_boundary (P : Pipeline) (st : ChatbotState) (uid : String)
    (msg : PyVal) (hs : sanitize_input msg ≠ "")
    (hf : pipelineFaults P (sanitize_input msg) (get_session st uid).1) :
    (process_messageP P st uid msg).1 = error_response := by
  unfold process_messageP
  rcases hf with ⟨e, he⟩ | ⟨i, e, hi, he⟩ | ⟨i, ents, e, hi, hext, hgen⟩
  · simp [hs, he]
  · simp [hs, hi, he]
  · simp [hs, hi, hext, hgen]

/-- Witness for C1: a pipeline whose generator raises, on the message "hello",
yields the fixed apology string. -/
theorem process_message_fault_boundary_witness :
    (process_messageP faultyPipeline ⟨[]⟩ "u1" (PyVal.str "hello")).1 = error_response :=
  process_message_fault_boundary faultyPipeline ⟨[]⟩ "u1" (PyVal.str "hello")
    (by decide)
    (Or.inr (Or.inr ⟨IntentType.greeting, _extract_entities "hello", "boom", rfl, rfl, rfl⟩))

/-- C3: for every unauthenticated session and any entities (and any randomness),
`generate_response` on `account_balance`, `transaction_history` or
`transfer_money` returns the fixed identity-verification message; the gate fires
before any intent-specific handler, so the result does not depend on the
entities or on the random choice. -/
theorem generate_response_auth_gate (pick : Nat) (intent : IntentType) (session : UserSession)
    (extracted : Entities)
    (hintent : intent = IntentType.account_balance ∨ intent = IntentType.transaction_history ∨
      intent = IntentType.transfer_money)
    (hauth : session.authenticated = false) :
    generate_response pick intent session extracted = Except.ok _request_authentication := by
  unfold generate_response
  rw [if_pos ⟨hintent, hauth⟩]

/-- Witness for C3: an unauthenticated balance inquiry is answered with the
verification request. -/
theorem generate_response_auth_gate_witness :
    generate_response 0 IntentType.account_balance
      { user_id := "u", authenticated := false, context := [], last_intent := none }
      { amount := none, account_number := none } = Except.ok _request_authentication :=
  generate_response_auth_gate 0 IntentType.account_balance
    { user_id := "u", authenticated := false, context := [], last_intent := none }
    { amount := none, account_number := none } (Or.inl rfl) rfl

/-- C4: `classify_intent` is total (it is a Lean function on all strings) and
agrees with the spec's algorithm: lower-case the text, scan the intents in the
fixed declared order, return the first whose keyword list has a substring
occurrence, defaulting to `unknown`. -/
theorem classify_intent_matches_spec (s : String) : classify_intent s = specClassify s := by
  unfold classify_intent specClassify
  rw [classifyGo_eq_find?, intent_keywords_eq, List.find?_map]
  have hcomp :
      ((fun (p : IntentType × List String) => p.2.any fun k => containsSub k.data (pyLower s.data))
          ∘ fun i => (i, keywordsOf i))
        = fun i => (keywordsOf i).any fun k => containsSub k.data (pyLower s.data) := rfl
  rw [hcomp]
  cases h : specIntentOrder.find?
      (fun i => (keywordsOf i).any fun k => containsSub k.data (pyLower s.data)) with
  | none => simp
  | some i => simp

/-- Witness for C4: on a message containing both a support keyword and a
balance keyword, both definitions agree (first declared order wins). -/
theorem classify_intent_matches_spec_witness :
    classify_intent "help me check my balance" = specClassify "help me check my balance" ∧
    classify_intent "help me check my balance" = IntentType.account_balance :=
  ⟨classify_intent_matches_spec "help me check my balance", by decide⟩

/-- C5 counterexample: the claim says `validate_account_number` returns true
only for strings consisting of exactly 10 to 12 ASCII digits, but the
program's `re.match(r'^\d{10,12}$', s)` also returns a match for
"1234567890\n" (the `$` accepts one final newline) and for the ten
Arabic-Indic digits U+0660..U+0669 (`\d` is Unicode Nd), neither of which
consists of ASCII digits only. -/
theorem validate_account_number_claim_counterexample :
    (validate_account_number "1234567890\n" = true ∧
      ¬ ∀ c ∈ ("1234567890\n" : String).data, c.isDigit = true) ∧
    (validate_account_number (⟨arabicIndicDigits⟩ : String) = true ∧
      ¬ ∀ c ∈ ((⟨arabicIndicDigits⟩ : String)).data, c.isDigit = true) := by
  decide

/-- C5 (amended): `validate_account_number(s)` returns true iff `s` consists of
10 to 12 Unicode decimal digits (category Nd), optionally followed by one
final newline; in particular it is false for "12345", true for "1234567890",
and false for "12345678901234". -/
theorem validate_account_number_amended (s : String) :
    validate_account_number s = true ↔
      ∃ ds rest, s.data = ds ++ rest ∧ 10 ≤ ds.length ∧ ds.length ≤ 12 ∧
        (∀ c ∈ ds, isPyDigit c = true) ∧ (rest = [] ∨ rest = ['\n']) := by
  unfold validate_account_number reMatchDigitsDollar
  simp only [Bool.and_eq_true, decide_eq_true_eq, Bool.or_eq_true, List.isEmpty_iff,
    beq_iff_eq]
  constructor
  · rintro ⟨⟨h10, h12⟩, hrest⟩
    exact ⟨s.data.takeWhile isPyDigit, s.data.dropWhile isPyDigit,
      (List.takeWhile_append_dropWhile isPyDigit s.data).symm, h10, h12,
      fun c hc => List.mem_takeWhile_imp hc, hrest⟩
  · rintro ⟨ds, rest, hsplit, h10, h12, hdig, hrest⟩
    have hblock : rest = [] ∨ ∃ c r, rest = c :: r ∧ isPyDigit c = false := by
      rcases hrest with rfl | rfl
      · exact Or.inl rfl
      · exact Or.inr ⟨'\n', [], rfl, by decide⟩
    have hds : s.data.takeWhile isPyDigit = ds := by
      rw [hsplit]
      exact takeWhile_append_all hdig hblock
    have hdrop : s.data.dropWhile isPyDigit = rest := by
      have hcat := List.takeWhile_append_dropWhile isPyDigit (ds ++ rest)
      rw [takeWhile_append_all hdig hblock] at hcat
      rw [hsplit]
      exact List.append_cancel_left hcat
    rw [hds, hdrop]
    exact ⟨⟨h10, h12⟩, hrest⟩

/-- Witness for C5 (amended): the claim's three example inputs keep their
stated values, the accepted one through the amended characterization. -/
theorem validate_account_number_amended_witness :
    validate_account_number "1234567890" = true ∧
    validate_account_number "12345" = false ∧
    validate_account_number "12345678901234" = false :=
  ⟨(validate_account_number_amended "1234567890").mpr
      ⟨("1234567890" : String).data, [], rfl, by decide, by decide, by decide, Or.inl rfl⟩,
    by decide, by decide⟩

/-- C6: on a string free of the five blacklisted characters, `sanitize_input`
is exactly `strip`; on any string the output contains none of the five
characters; a non-string input yields the empty string. -/
theorem sanitize_input_spec :
    (∀ t : String, (∀ c ∈ t.data, c ∉ bannedChars) →
      sanitize_input (PyVal.str t) = pyStripStr t) ∧
    (∀ t : String, ∀ c ∈ (sanitize_input (PyVal.str t)).data, c ∉ bannedChars) ∧
    sanitize_input PyVal.nonStr = "" := by
  refine ⟨?_, ?_, rfl⟩
  · intro t h
    have hfil : t.data.filter (fun c => !(bannedChars.contains c)) = t.data :=
      List.filter_eq_self.mpr (fun a ha => by simp [h a ha])
    show (⟨pyStrip (t.data.filter (fun c => !(bannedChars.contains c)))⟩ : String)
      = ⟨pyStrip t.data⟩
    rw [hfil]
  · intro t c hc hmem
    have h2 := mem_of_mem_pyStrip (show c ∈ pyStrip
      (t.data.filter fun c => !(bannedChars.contains c)) from hc)
    have h3 := List.of_mem_filter h2
    simp at h3
    exact h3 hmem

/-- Witness for C6: a clean padded string is merely stripped. -/
theorem sanitize_input_spec_witness :
    (∀ c ∈ ("  hello  " : String).data, c ∉ bannedChars) ∧
    sanitize_input (PyVal.str "  hello  ") = pyStripStr "  hello  " ∧
    pyStripStr "  hello  " = "hello" :=
  ⟨by decide, sanitize_input_spec.1 "  hello  " (by decide), by decide⟩

/-- C7: whatever the pipeline components are, a message whose sanitized form is
empty is answered with the fixed invalid-message string, the only state change
being the session fetch/create; in particular no component is consulted. -/
theorem process_message_empty_short_circuit (P : Pipeline) (st : ChatbotState) (uid : String)
    (msg : PyVal) (h : sanitize_input msg = "") :
    process_messageP P st uid msg = (invalid_message_response, (get_session st uid).2) := by
  unfold process_messageP
  simp [h]

/-- Witness for C7: the empty message on the real pipeline. -/
theorem process_message_empty_short_circuit_witness :
    process_messageP (realPipeline 0) ⟨[]⟩ "u1" (PyVal.str "")
      = (invalid_message_response, (get_session (⟨[]⟩ : ChatbotState) "u1").2) :=
  process_message_empty_short_circuit (realPipeline 0) ⟨[]⟩ "u1" (PyVal.str "") rfl

/-- C2 counterexample: the claim says `validate_amount("-5")` returns
`(false, 0.0)`, but the code returns the parsed value alongside the flag:
`(false, -5.0)`. -/
theorem validate_amount_claim_counterexample : validate_amount "-5" ≠ (false, 0) := by
  rw [validate_amount_neg5_eval]
  intro h
  have := congrArg Prod.snd h
  norm_num at this

/-- C2 (amended): `validate_amount(s)` strips `$` and `,` and parses; it
returns `(true, v)` iff the parse succeeds with value `v` and `v > 0`; on parse
failure it returns `(false, 0.0)`; on a successful parse of a non-positive
value it returns `(false, v)` with the parsed `v`, so `validate_amount("-5")`
returns `(false, -5.0)`, and `validate_amount("$1,000.00")` returns
`(true, 1000.0)`. -/
theorem validate_amount_amended :
    (∀ (s : String) (v : Rat),
      validate_amount s = (true, v) ↔ pyFloat (stripMoney s) = some v ∧ 0 < v) ∧
    (∀ s : String, pyFloat (stripMoney s) = none → validate_amount s = (false, 0)) ∧
    (∀ (s : String) (v : Rat), pyFloat (stripMoney s) = some v → (validate_amount s).2 = v) ∧
    validate_amount "-5" = (false, -5) ∧
    validate_amount "$1,000.00" = (true, 1000) := by
  refine ⟨?_, ?_, ?_, validate_amount_neg5_eval, validate_amount_1000_eval⟩
  · intro s v
    unfold validate_amount
    cases h : pyFloat (stripMoney s) with
    | none =>
      simp only [reduceCtorEq, false_and, iff_false]
      intro he
      have := congrArg Prod.fst he
      simp at this
    | some w =>
      simp only [Option.some.injEq, Prod.mk.injEq]
      constructor
      · rintro ⟨hdec, rfl⟩
        exact ⟨rfl, of_decide_eq_true hdec⟩
      · rintro ⟨rfl, hv⟩
        exact ⟨decide_eq_true hv, rfl⟩
  · intro s h
    unfold validate_amount
    rw [h]
  · intro s v h
    unfold validate_amount
    rw [h]

/-- Witness for C2 (amended): a non-numeric string fails the parse and yields
`(false, 0.0)`. -/
theorem validate_amount_amended_witness :
    pyFloat (stripMoney "abc") = none ∧ validate_amount "abc" = (false, 0) :=
  ⟨rfl, validate_amount_amended.2.1 "abc" rfl⟩

/-- C8: on "Please send $1,200.50 to account 1234567890" the extractor returns
amount "1,200.50" and account_number "1234567890"; and on every input each key
is present exactly when its regex finds a match somewhere in the text (an
absent key — `none` — signals no match; the code never stores a null value). -/
theorem extract_entities_spec :
    _extract_entities "Please send $1,200.50 to account 1234567890"
      = { amount := some "1,200.50", account_number := some "1234567890" } ∧
    ∀ msg : String,
      ((_extract_entities msg).amount.isSome = true ↔ amountMatchFound msg.data) ∧
      ((_extract_entities msg).account_number.isSome = true ↔ accountMatchFound msg.data) := by
  refine ⟨by decide, ?_⟩
  intro msg
  unfold _extract_entities amountMatchFound accountMatchFound
  constructor
  · simpa [Option.isSome_map'] using scanFirst_isSome_iff matchAmountAt msg.data
  · simpa [Option.isSome_map'] using scanFirstP_isSome_iff matchAccountAt msg.data none

/-- Witness for C8: the characterization applied at the claim's example
message. -/
theorem extract_entities_spec_witness :
    ((_extract_entities "Please send $1,200.50 to account 1234567890").amount.isSome = true ↔
      amountMatchFound ("Please send $1,200.50 to account 1234567890" : String).data) :=
  (extract_entities_spec.2 "Please send $1,200.50 to account 1234567890").1

/-- C9: on every message that survives sanitization, the classified intent is
written to the stored session before the generator runs: whatever the extractor
and generator do — including raising — the post-call session for the user has
`last_intent` equal to the newly classified intent (the error path does not
restore the previous value). -/
theorem process_message_records_last_intent
    (ext : String → Except String Entities)
    (gen : IntentType → UserSession → Entities → Except String String)
    (st : ChatbotState) (uid : String) (msg : PyVal)
    (hs : sanitize_input msg ≠ "") :
    lookupSession
      (process_messageP
        { classify := fun s => Except.ok (classify_intent s), extract := ext, generate := gen }
        st uid msg).2 uid
      = some { (get_session st uid).1 with
               last_intent := some (classify_intent (sanitize_input msg)) } := by
  unfold process_messageP
  simp only [hs, if_false]
  cases hext : ext (sanitize_input msg) with
  | error e => simp [hs, hext, lookupSession_set]
  | ok ents =>
    cases hgen : gen (classify_intent (sanitize_input msg))
        { (get_session st uid).1 with last_intent := some (classify_intent (sanitize_input msg)) }
        ents with
    | error e => simp [hs, hext, hgen, lookupSession_set]
    | ok resp => simp [hs, hext, hgen, lookupSession_set]

/-- Witness for C9: with a raising generator, the session still records the
newly classified intent (greeting for "hello"). -/
theorem process_message_records_last_intent_witness :
    lookupSession
      (process_messageP
        { classify := fun s => Except.ok (classify_intent s),
          extract := fun s => Except.ok (_extract_entities s),
          generate := fun _ _ _ => Except.error "boom" } ⟨[]⟩ "u1" (PyVal.str "hello")).2 "u1"
      = some { user_id := "u1", authenticated := false, context := [],
               last_intent := some IntentType.greeting } :=
  process_message_records_last_intent (fun s => Except.ok (_extract_entities s))
    (fun _ _ _ => Except.error "boom") ⟨[]⟩ "u1" (PyVal.str "hello") (by decide)

/-- C10: any message containing at least one digit yields an `amount` entity:
the dollar sign in the amount pattern is optional and a bare run of one to
three digits matches, so the scan succeeds at the first digit at the latest. -/
theorem extract_entities_amount_of_digit (msg : String)
    (h : ∃ c, c ∈ msg.data ∧ c.isDigit = true) :
    ((_extract_entities msg).amount).isSome = true := by
  unfold _extract_entities
  simpa [Option.isSome_map'] using scanFirst_amount_of_digit h

/-- Witness for C10: a message that is just a 10-digit account number still
yields an amount entity, namely the first three digits. -/
theorem extract_entities_amount_of_digit_witness :
    (∃ c, c ∈ ("1234567890" : String).data ∧ c.isDigit = true) ∧
    ((_extract_entities "1234567890").amount).isSome = true ∧
    (_extract_entities "1234567890").amount = some "123" :=
  ⟨by decide, extract_entities_amount_of_digit "1234567890" (by decide), by decide⟩
